import Mathlib

/-!
# Verification of the transition-matrix repository

A shallow embedding of `src/scripts/tfm_analyze.py`, `src/scripts/tfm_decorator.py`
and `src/scripts/tfm_visualizations.py`, together with proofs about the embedded
operations.

Modelling conventions:
* Python `dict`s (insertion-ordered) are modelled as association lists; assignment
  to an existing key updates it in place, assignment to a fresh key appends.
* Python floats are modelled as rationals (`ℚ`); IEEE-754 rounding is not modelled.
* Real timestamps (`datetime.now()`, `time.perf_counter()`) are not modelled; the
  caller-measured duration is passed in explicitly, and the timestamp field is
  omitted from the event record.
* Logging side effects (`logger.info`) are I/O and are not modelled.
-/

namespace TFM

/-- Association-list lookup: the value stored at key `k`, if any
(models Python `dict.get` / `dict.__getitem__`). -/
def lookupA {α : Type} : List (String × α) → String → Option α
  | [], _ => none
  | (k, v) :: rest, key => if k = key then some v else lookupA rest key

/-- Association-list assignment (models Python `d[k] = v`): an existing key keeps
its position, a fresh key is appended at the end. -/
def setA {α : Type} : List (String × α) → String → α → List (String × α)
  | [], key, v => [(key, v)]
  | (k, w) :: rest, key, v =>
      if k = key then (k, v) :: rest else (k, w) :: setA rest key v

/-- The failure matrix: an ordered mapping `from_state ↦ (to_state ↦ count)`
(models the nested `defaultdict(lambda: defaultdict(int))`). -/
abbrev Matrix := List (String × List (String × Nat))

/-- Increment in the inner `defaultdict(int)` (models `inner[t] += 1`): an
existing key is bumped in place, a missing key enters with count 1 at the end. -/
def bumpInner : List (String × Nat) → String → List (String × Nat)
  | [], t => [(t, 1)]
  | (k, v) :: rest, t =>
      if k = t then (k, v + 1) :: rest else (k, v) :: bumpInner rest t

/-- Increment in the matrix (models `self.matrix[from_state][to_state] += 1`):
a fresh `from` row is appended at the end with a single entry. -/
def bump : Matrix → String → String → Matrix
  | [], f, t => [(f, bumpInner [] t)]
  | (k, inner) :: rest, f, t =>
      if k = f then (k, bumpInner inner t) :: rest else (k, inner) :: bump rest f t

/-- The count stored at `(f, t)`, zero if absent (what Python's
`self.matrix[f][t]` evaluates to as a value). -/
def getCount (m : Matrix) (f t : String) : Nat :=
  match lookupA m f with
  | none => 0
  | some inner => (lookupA inner t).getD 0

/-- Sum of the counts in one row of the matrix. -/
def rowSum : List (String × Nat) → Nat
  | [] => 0
  | (_, c) :: rest => c + rowSum rest

/-- Sum of all counts in the matrix. -/
def matrixSum : Matrix → Nat
  | [] => 0
  | (_, inner) :: rest => rowSum inner + matrixSum rest

/-- The matrix flattened to `(from, to, count)` triples in iteration order
(models the nested `for from_state, to_states in self.matrix.items(): for
to_state, count in to_states.items()` loops). -/
def flattenMatrix : Matrix → List (String × String × Nat)
  | [] => []
  | (f, inner) :: rest => inner.map (fun p => (f, p.1, p.2)) ++ flattenMatrix rest

/-- Insert a string in a list if not already present (models `set.add`; the
set is only ever read through `sorted`, so the representation order is
irrelevant to every observable below). -/
def insertNew (l : List String) (s : String) : List String :=
  if s ∈ l then l else l ++ [s]

/-- Descending-count comparison used for hotspot sorting: `a` may come before
`b` when `b`'s count is at most `a`'s (models `sorted(..., key=lambda x: -x[2])`,
which is a stable sort by descending count). -/
def hotspotLE (a b : String × String × Nat) : Prop := b.2.2 ≤ a.2.2

instance : DecidableRel hotspotLE := fun a b => Nat.decLe b.2.2 a.2.2

instance : IsTotal (String × String × Nat) hotspotLE :=
  ⟨fun a b => (Nat.le_total b.2.2 a.2.2).imp id id⟩

instance : IsTrans (String × String × Nat) hotspotLE :=
  ⟨fun _ _ _ h1 h2 => Nat.le_trans h2 h1⟩

/-- Lexicographic-by-codepoint order on strings, used where Python calls
`sorted` on strings. -/
def stringLE (a b : String) : Prop := a ≤ b

instance : DecidableRel stringLE := fun a b => inferInstanceAs (Decidable (a ≤ b))

/-! ## `tfm_analyze.py`: class `TransitionFailureMatrix` -/

/-- State of `TransitionFailureMatrix` (`tfm_analyze.py`, `__init__`).
`discovered_states` models the Python `set`; it is only observed through
`sorted`. -/
structure TransitionFailureMatrix where
  states : List String
  matrix : Matrix
  total_transitions : Nat
  total_failures : Nat
  discovered_states : List String
deriving DecidableEq

namespace TransitionFailureMatrix

/-- `TransitionFailureMatrix(states)`: `self.states = states or []`
(both `None` and `[]` yield the empty list, so the argument is a plain list). -/
def init (states : List String) : TransitionFailureMatrix :=
  { states := states
    matrix := []
    total_transitions := 0
    total_failures := 0
    discovered_states := [] }

/-- `record_failure` (`tfm_analyze.py` lines 33-38). -/
def record_failure (m : TransitionFailureMatrix) (from_state to_state : String) :
    TransitionFailureMatrix :=
  { m with
    matrix := bump m.matrix from_state to_state
    total_failures := m.total_failures + 1
    discovered_states := insertNew (insertNew m.discovered_states from_state) to_state }

/-- `record_transition` (`tfm_analyze.py` lines 40-46). -/
def record_transition (m : TransitionFailureMatrix) (from_state to_state : String)
    (success : Bool) : TransitionFailureMatrix :=
  let m' := { m with
    total_transitions := m.total_transitions + 1
    discovered_states := insertNew (insertNew m.discovered_states from_state) to_state }
  if success then m' else record_failure m' from_state to_state

/-- `get_all_states` (`tfm_analyze.py` lines 48-52): the configured list if
non-empty (Python truthiness of `self.states`), else the discovered states
sorted lexicographically. -/
def get_all_states (m : TransitionFailureMatrix) : List String :=
  if m.states.isEmpty then List.insertionSort stringLE m.discovered_states
  else m.states

/-- `get_hotspots` (`tfm_analyze.py` lines 54-61): collect entries with
`count >= min_count` in matrix iteration order, then stable-sort by count
descending. -/
def get_hotspots (m : TransitionFailureMatrix) (min_count : Nat) :
    List (String × String × Nat) :=
  List.insertionSort hotspotLE
    ((flattenMatrix m.matrix).filter (fun e => decide (min_count ≤ e.2.2)))

end TransitionFailureMatrix

/-! ## Display formatting helpers -/

/-- A run of `n` spaces. -/
def spaces (n : Nat) : String := String.mk (List.replicate n ' ')

/-- Python format spec `{s:^{w}}`: centre `s` in width `w`, the extra padding
character going to the right. -/
def center (s : String) (w : Nat) : String :=
  let pad := w - s.length
  spaces (pad / 2) ++ s ++ spaces (pad - pad / 2)

/-- Python format spec `{s:>{w}}`: right-align `s` in width `w`. -/
def rjust (s : String) (w : Nat) : String := spaces (w - s.length) ++ s

/-- Python format spec `{x:.1f}` on a non-negative rational: round half to even
at one decimal and print `int.dec`.  (The source formats a float; the binary
rounding of the float itself is not modelled.) -/
def fmt1 (q : ℚ) : String :=
  let n : Int := q.num * 10
  let d : Int := (q.den : Int)
  let q0 : Int := Int.ediv n d
  let r : Int := n - q0 * d
  let n10 : Int :=
    if 2 * r < d then q0
    else if d < 2 * r then q0 + 1
    else if q0 % 2 = 0 then q0 else q0 + 1
  toString (Int.ediv n10 10) ++ "." ++ toString (Int.emod n10 10)

namespace TransitionFailureMatrix

/-- The `failure_rate` local computed in `render_markdown`
(`tfm_analyze.py` lines 70-74). -/
def markdown_failure_rate (m : TransitionFailureMatrix) : ℚ :=
  if 0 < m.total_transitions then
    (m.total_failures : ℚ) / (m.total_transitions : ℚ) * 100
  else 0

/-- The `failure_rate` entry computed in `render_json`
(`tfm_analyze.py` lines 163-167). -/
def json_failure_rate (m : TransitionFailureMatrix) : ℚ :=
  if 0 < m.total_transitions then
    (m.total_failures : ℚ) / (m.total_transitions : ℚ)
  else 0

/-- `render_markdown` (`tfm_analyze.py` lines 63-106).  Reading
`self.matrix[f][t]` in the row loop is modelled by `getCount`; the zero
entries that the Python `defaultdict` inserts as a side effect of that read
change no count and no rendered output. -/
def render_markdown (m : TransitionFailureMatrix) : String :=
  let states := get_all_states m
  if states.isEmpty then "# Transition Failure Matrix\n\nNo transitions found."
  else
    let failure_rate := markdown_failure_rate m
    let header := states.foldl (fun h s => h ++ " " ++ s ++ " |") "| From \\ To |"
    let separator := states.foldl (fun h _ => h ++ "--------|") "|-----------|"
    let rows := states.map (fun f =>
      states.foldl (fun row t =>
        let count := getCount m.matrix f t
        if 0 < count then row ++ " **" ++ toString count ++ "** |"
        else row ++ " - |") ("| **" ++ f ++ "** |"))
    let hotspots := get_hotspots m 2
    let hotspotLines :=
      if hotspots.isEmpty then []
      else "\n## Hotspots (failures >= 2)\n" ::
        (hotspots.take 10).map (fun e =>
          "- " ++ e.1 ++ " -> " ++ e.2.1 ++ ": **" ++ toString e.2.2 ++ " failures**")
    String.intercalate "\n"
      (["# Transition Failure Matrix\n",
        "**Total Transitions:** " ++ toString m.total_transitions,
        "**Total Failures:** " ++ toString m.total_failures,
        "**Failure Rate:** " ++ fmt1 failure_rate ++ "%\n",
        header, separator] ++ rows ++ hotspotLines)

/-- `render_ascii` (`tfm_analyze.py` lines 108-149). -/
def render_ascii (m : TransitionFailureMatrix) : String :=
  let states := get_all_states m
  if states.isEmpty then "No transitions found."
  else
    let max_state_len := (states.map String.length).foldl max 0
    let col_width := max max_state_len 4
    let header := states.foldl (fun h s => h ++ center s col_width ++ " ")
      (spaces (col_width + 3))
    let rows := states.map (fun f =>
      states.foldl (fun row t =>
        let count := getCount m.matrix f t
        if 0 < count then row ++ center (toString count) col_width ++ " "
        else row ++ center "·" col_width ++ " ") (rjust f col_width ++ " |"))
    let hotspots := get_hotspots m 2
    let hotspotLines :=
      if hotspots.isEmpty then []
      else "" :: "Hotspots:" ::
        (hotspots.take 5).map (fun e =>
          "  " ++ e.1 ++ " -> " ++ e.2.1 ++ ": " ++ toString e.2.2)
    String.intercalate "\n"
      (["Total Transitions: " ++ toString m.total_transitions,
        "Total Failures: " ++ toString m.total_failures,
        "",
        header,
        String.mk (List.replicate header.length '-')] ++ rows ++ hotspotLines)

end TransitionFailureMatrix

/-- The JSON object built by `render_json` (`tfm_analyze.py` lines 151-170),
as a structured value: the source passes exactly these fields to
`json.dumps(..., indent=2)`; textual serialization is not modelled. -/
structure JsonSummary where
  states : List String
  matrix : Matrix
  hotspots : List (String × String × Nat)
  total_transitions : Nat
  total_failures : Nat
  failure_rate : ℚ
deriving DecidableEq

namespace TransitionFailureMatrix

/-- The value serialized by `render_json` (`tfm_analyze.py` lines 151-170). -/
def render_json_value (m : TransitionFailureMatrix) (min_failures : Nat) :
    JsonSummary :=
  { states := get_all_states m
    matrix := m.matrix
    hotspots := get_hotspots m min_failures
    total_transitions := m.total_transitions
    total_failures := m.total_failures
    failure_rate := json_failure_rate m }

end TransitionFailureMatrix

/-! ## `tfm_analyze.py`: class `LogParser`

The three class-level regular expressions are embedded as executable matchers
over `List Char` with Python `re.search` semantics (leftmost match; greedy
quantifiers with backtracking).  `\w` is modelled as ASCII alphanumeric or
underscore, `\s` as `Char.isWhitespace`. -/

/-- `\w` (word character). -/
def isWordChar (c : Char) : Bool := c.isAlphanum || c == '_'

/-- Consume a literal case-sensitively, returning the rest of the input. -/
def matchLit : List Char → List Char → Option (List Char)
  | [], cs => some cs
  | _ :: _, [] => none
  | l :: ls, c :: cs => if l = c then matchLit ls cs else none

/-- Consume a literal case-insensitively (models `re.IGNORECASE`),
returning the rest of the input. -/
def matchLitCI : List Char → List Char → Option (List Char)
  | [], cs => some cs
  | _ :: _, [] => none
  | l :: ls, c :: cs => if l.toUpper = c.toUpper then matchLitCI ls cs else none

/-- Match `(SUCCESS|FAILURE)` case-insensitively at the head of the input,
alternatives tried left to right; `true` means the `SUCCESS` branch matched
(the source then tests `result.upper() == "SUCCESS"`, which holds exactly for
that branch). -/
def matchResultKeyword (cs : List Char) : Option Bool :=
  match matchLitCI "SUCCESS".data cs with
  | some _ => some true
  | none =>
    match matchLitCI "FAILURE".data cs with
    | some _ => some false
    | none => none

/-- Backtracking for `(\w+)\s*(SUCCESS|FAILURE)` applied to a maximal word run
`run` followed by `rest0`: try capture lengths `k, k-1, ..., 1` (greedy order).
`\s*` never needs backtracking because the keyword cannot start with
whitespace. -/
def tryResultSplit (run rest0 : List Char) : Nat → Option (List Char × Bool)
  | 0 => none
  | k + 1 =>
    let after := run.drop (k + 1) ++ rest0
    match matchResultKeyword (after.dropWhile Char.isWhitespace) with
    | some b => some (run.take (k + 1), b)
    | none => tryResultSplit run rest0 k

/-- Attempt `TRANSITION_PATTERN` =
`TRANSITION:\s*(\w+)\s*->\s*(\w+)\s*(SUCCESS|FAILURE)` (IGNORECASE) at the
start of the input.  The first `(\w+)` needs no backtracking: shortening it
leaves a word character where `->` must match. -/
def matchTransitionAt (cs : List Char) : Option (String × String × Bool) :=
  match matchLitCI "TRANSITION:".data cs with
  | none => none
  | some r1 =>
    let r2 := r1.dropWhile Char.isWhitespace
    let fromRun := r2.takeWhile isWordChar
    if fromRun.isEmpty then none
    else
      let r3 := (r2.dropWhile isWordChar).dropWhile Char.isWhitespace
      match matchLit "->".data r3 with
      | none => none
      | some r4 =>
        let r5 := r4.dropWhile Char.isWhitespace
        let toRun := r5.takeWhile isWordChar
        let rest0 := r5.dropWhile isWordChar
        match tryResultSplit toRun rest0 toRun.length with
        | some (cap, b) => some (String.mk fromRun, String.mk cap, b)
        | none => none

/-- `TRANSITION_PATTERN.search`: try the pattern at each start position,
leftmost first. -/
def searchTransitionL : List Char → Option (String × String × Bool)
  | [] => none
  | c :: cs =>
    match matchTransitionAt (c :: cs) with
    | some r => some r
    | none => searchTransitionL cs

/-- Attempt `STATE_CHANGE_PATTERN` = `STATE:\s*(\w+)` (case-sensitive) at the
start of the input. -/
def matchStateAt (cs : List Char) : Option String :=
  match matchLit "STATE:".data cs with
  | none => none
  | some r1 =>
    let r2 := r1.dropWhile Char.isWhitespace
    let run := r2.takeWhile isWordChar
    if run.isEmpty then none else some (String.mk run)

/-- `STATE_CHANGE_PATTERN.search`. -/
def searchStateL : List Char → Option String
  | [] => none
  | c :: cs =>
    match matchStateAt (c :: cs) with
    | some r => some r
    | none => searchStateL cs

/-- Substring containment over character lists. -/
def containsSub (needle : List Char) : List Char → Bool
  | [] => needle.isEmpty
  | c :: cs => (matchLit needle (c :: cs)).isSome || containsSub needle cs

/-- `ERROR_PATTERN.search` as a Boolean: does the line contain one of
`ERROR`, `EXCEPTION`, `FAILED`, `FAILURE`, case-insensitively
(`tfm_analyze.py` line 181)? -/
def hasErrorKeyword (cs : List Char) : Bool :=
  let up := cs.map Char.toUpper
  containsSub "ERROR".data up || containsSub "EXCEPTION".data up ||
    containsSub "FAILED".data up || containsSub "FAILURE".data up

/-- Python `str.strip()`: remove whitespace from both ends. -/
def stripChars (cs : List Char) : List Char :=
  ((cs.dropWhile Char.isWhitespace).reverse.dropWhile Char.isWhitespace).reverse

/-- The loop state of `LogParser.parse_lines`: the matrix under construction
and the `current_state` local. -/
structure ParseState where
  matrix : TransitionFailureMatrix
  current : Option String
deriving DecidableEq

/-- One iteration of the `for line in lines` loop of `LogParser.parse_lines`
(`tfm_analyze.py` lines 198-220).  `current_state and current_state != new_state`
uses Python truthiness, so an empty-string current state also skips the
implicit record. -/
def parseLine (st : ParseState) (line : String) : ParseState :=
  let l := stripChars line.data
  if l.isEmpty then st
  else
    match searchTransitionL l with
    | some (from_state, to_state, success) =>
      { matrix := st.matrix.record_transition from_state to_state success
        current := some (if success then to_state else from_state) }
    | none =>
      match searchStateL l with
      | some new_state =>
        let m' :=
          match st.current with
          | some c =>
            if c ≠ "" ∧ c ≠ new_state then
              st.matrix.record_transition c new_state (!hasErrorKeyword l)
            else st.matrix
          | none => st.matrix
        { matrix := m', current := some new_state }
      | none => st

/-- `LogParser.parse_lines` (`tfm_analyze.py` lines 191-222). -/
def parseLines (lines : List String) (states : List String) : ParseState :=
  lines.foldl parseLine
    { matrix := TransitionFailureMatrix.init states, current := none }

/-! ## `tfm_decorator.py`: `TransitionEvent`, `TransitionTracker`, wrappers -/

/-- `TransitionEvent` (`tfm_decorator.py` lines 35-45).  The `timestamp` field
(`datetime.now()`) is real time and is omitted; `metadata` is the keyword
dictionary. -/
structure TransitionEvent where
  from_state : String
  to_state : String
  success : Bool
  duration_ms : ℚ
  error_message : Option String
  metadata : List (String × String)
deriving DecidableEq

/-- State of `TransitionTracker` (`tfm_decorator.py` lines 57-60). -/
structure TransitionTracker where
  events : List TransitionEvent
  current_state : List (String × String)
  matrix : Matrix
deriving DecidableEq

namespace TransitionTracker

/-- `TransitionTracker()` — also what `get_instance` yields on first call. -/
def init : TransitionTracker := { events := [], current_state := [], matrix := [] }

/-- `set_state` (`tfm_decorator.py` lines 74-76). -/
def set_state (t : TransitionTracker) (state : String)
    (workflow_id : String := "default") : TransitionTracker :=
  { t with current_state := setA t.current_state workflow_id state }

/-- `get_current_state` (`tfm_decorator.py` lines 78-80): `dict.get`, so `none`
when the workflow has no entry. -/
def get_current_state (t : TransitionTracker)
    (workflow_id : String := "default") : Option String :=
  lookupA t.current_state workflow_id

/-- `record_transition` (`tfm_decorator.py` lines 82-126).  The `logger.info`
call is I/O and is not modelled; it reads but does not change the state. -/
def record_transition (t : TransitionTracker) (from_state to_state : String)
    (success : Bool) (duration_ms : ℚ := 0) (error_message : Option String := none)
    (workflow_id : String := "default")
    (metadata : List (String × String) := []) : TransitionTracker :=
  let event : TransitionEvent :=
    { from_state := from_state
      to_state := to_state
      success := success
      duration_ms := duration_ms
      error_message := error_message
      metadata := metadata }
  { events := t.events ++ [event]
    matrix := if success then t.matrix else bump t.matrix from_state to_state
    current_state :=
      if success then setA t.current_state workflow_id to_state
      else t.current_state }

/-- The summary dictionary of `get_matrix_summary`
(`tfm_decorator.py` lines 128-146). -/
structure Summary where
  states : List String
  matrix : Matrix
  total_events : Nat
  total_failures : Nat
deriving DecidableEq

/-- `get_matrix_summary` (`tfm_decorator.py` lines 128-146): state names come
from the matrix and from every event, deduplicated and sorted. -/
def get_matrix_summary (t : TransitionTracker) : Summary :=
  let fromMatrix := t.matrix.foldl (fun acc row =>
    row.2.foldl (fun acc2 cell => insertNew acc2 cell.1) (insertNew acc row.1)) []
  let allNames := t.events.foldl (fun acc e =>
    insertNew (insertNew acc e.from_state) e.to_state) fromMatrix
  { states := List.insertionSort stringLE allNames
    matrix := t.matrix
    total_events := t.events.length
    total_failures := (t.events.filter (fun e => !e.success)).length }

/-- `get_hotspots` (`tfm_decorator.py` lines 148-155); same algorithm as the
analyzer's. -/
def get_hotspots (t : TransitionTracker) (min_count : Nat) :
    List (String × String × Nat) :=
  List.insertionSort hotspotLE
    ((flattenMatrix t.matrix).filter (fun e => decide (min_count ≤ e.2.2)))

/-- `reset` (`tfm_decorator.py` lines 157-161). -/
def reset (_ : TransitionTracker) : TransitionTracker := init

end TransitionTracker

/-- Python truthiness fallback `x or "START"` used by the wrappers
(`tfm_decorator.py` lines 230 and 259): both `None` and the empty string fall
back to `"START"`. -/
def orStart : Option String → String
  | none => "START"
  | some s => if s = "" then "START" else s

/-- The outcome of the wrapped call: a returned value or a raised exception.
The exception type `ε` is abstract; `strF` below models Python's `str(e)`. -/
abbrev Outcome (ε α : Type) := Except ε α

/-- `track_state(...)`'s `sync_wrapper` (`tfm_decorator.py` lines 228-254) as a
function of the resolved tracker, the caller-measured duration and the wrapped
call's outcome.  `tracker or TransitionTracker.get_instance()` resolves to a
tracker value, passed explicitly here; `time.perf_counter()` timing is real
time, so the measured duration is a parameter. -/
def sync_wrapper {ε α : Type} (state_name workflow_id : String)
    (strF : ε → String) (t : TransitionTracker) (duration_ms : ℚ)
    (outcome : Outcome ε α) : TransitionTracker × Outcome ε α :=
  let from_state := orStart (t.get_current_state workflow_id)
  match outcome with
  | .ok result =>
    (t.record_transition from_state state_name true duration_ms none workflow_id [],
      .ok result)
  | .error e =>
    (t.record_transition from_state state_name false duration_ms (some (strF e))
        workflow_id [],
      .error e)

/-- `track_state(...)`'s `async_wrapper` (`tfm_decorator.py` lines 256-283):
textually identical to `sync_wrapper` except for `await`; suspension is not
observable in this model, so the body is the same function. -/
def async_wrapper {ε α : Type} (state_name workflow_id : String)
    (strF : ε → String) (t : TransitionTracker) (duration_ms : ℚ)
    (outcome : Outcome ε α) : TransitionTracker × Outcome ε α :=
  sync_wrapper state_name workflow_id strF t duration_ms outcome

/-! ## Spec-modelled operations

`tfm_enhanced_example.py` imports `compare_to_baseline` and `cluster_errors`
from `tfm_decorator` and calls `tracker.get_transition_rates()` /
`tracker.render_sankey()`, but none of these is defined in the sources. -/

/-- The per-pair statistics dictionary of `transitionRates()`.  Field names
follow the callers in `tfm_enhanced_example.py` (`failure_rate` is the percent
form, per spec §4.1). -/
structure RateStats where
  total : Nat
  successes : Nat
  failures : Nat
  failure_rate : ℚ
  avg_duration_ms : ℚ
deriving DecidableEq

/-- Modelled from the spec: `TransitionTracker.get_transition_rates` is called
by `tfm_enhanced_example.py` and `tfm_visualizations.py` but not defined under
`src/`.  Spec §4.1: group all events (success and failure) by ordered pair
labelled `"from → to"`; `failureRatePercent = failures/total*100` (0 when
total is 0); `averageDurationMs` is the mean duration (0 when no samples). -/
def TransitionTracker.get_transition_rates (t : TransitionTracker) :
    List (String × RateStats) :=
  let groups : List (String × List TransitionEvent) :=
    t.events.foldl (fun acc e =>
      let key := e.from_state ++ " → " ++ e.to_state
      match lookupA acc key with
      | some evs => setA acc key (evs ++ [e])
      | none => acc ++ [(key, [e])]) []
  groups.map (fun g =>
    let evs := g.2
    let total := evs.length
    let failures := (evs.filter (fun e => !e.success)).length
    let successes := total - failures
    (g.1,
      { total := total
        successes := successes
        failures := failures
        failure_rate :=
          if 0 < total then (failures : ℚ) / (total : ℚ) * 100 else 0
        avg_duration_ms :=
          if 0 < total then (evs.map TransitionEvent.duration_ms).sum / (total : ℚ)
          else 0 }))

/-- A regression record of `compareToBaseline` (spec §4.1); field names follow
the consumer loop in `tfm_enhanced_example.py` lines 144-151. -/
structure Regression where
  transition : String
  baseline_rate : ℚ
  current_rate : ℚ
  delta : ℚ
  percent_increase : ℚ
deriving DecidableEq

/-- The epsilon guarding the relative-increase division in
`compareToBaseline`; the spec names it but leaves the value open, so any
positive value far below real failure-rate percentages serves. -/
def epsilonTFM : ℚ := 1 / 1000000

/-- Modelled from the spec: `compare_to_baseline` is imported by
`tfm_enhanced_example.py` from `tfm_decorator` but not defined under `src/`.
Spec §4.1: for every pair present in both rate mappings, `delta =
current.failureRatePercent − baseline.failureRatePercent`; report a regression
when `delta > 0` and `delta / max(baseline.failureRatePercent, epsilon) >
threshold`; pairs present on only one side are ignored. -/
def compare_to_baseline :
    List (String × RateStats) → List (String × RateStats) → ℚ → List Regression
  | [], _, _ => []
  | (pair, cur) :: rest, baseline, threshold =>
    let tail := compare_to_baseline rest baseline threshold
    match lookupA baseline pair with
    | none => tail
    | some base =>
      let delta := cur.failure_rate - base.failure_rate
      let denom := max base.failure_rate epsilonTFM
      if 0 < delta ∧ threshold < delta / denom then
        { transition := pair
          baseline_rate := base.failure_rate
          current_rate := cur.failure_rate
          delta := delta
          percent_increase := delta / denom * 100 } :: tail
      else tail

/-! ## `tfm_visualizations.py`: `render_sankey` -/

/-- Key order used by `sorted(rates.items())`: Python compares the pairs
lexicographically, and keys are unique, so it sorts by the label string. -/
def rateKeyLE (a b : String × RateStats) : Prop := a.1 ≤ b.1

instance : DecidableRel rateKeyLE := fun a b => inferInstanceAs (Decidable (a.1 ≤ b.1))

/-- `render_sankey` (`tfm_visualizations.py` lines 16-87).  The local set
`states_with_outflow` never reaches the returned string and is dropped. -/
def render_sankey (t : TransitionTracker) (include_failures : Bool := true)
    (min_transitions : Nat := 1) : String :=
  let rates := t.get_transition_rates
  if rates.isEmpty then "```mermaid\nsankey-beta\n\nNo transitions recorded\n```"
  else
    let sortedRates := List.insertionSort rateKeyLE rates
    let body := sortedRates.foldl (fun acc r =>
      match (r.1.splitOn " → ") with
      | [from_state, to_state] =>
        let successes := r.2.successes
        let failures := r.2.failures
        if successes < min_transitions ∧ failures < min_transitions then acc
        else
          let acc1 :=
            if min_transitions ≤ successes then
              acc ++ [from_state ++ "," ++ to_state ++ "," ++ toString successes]
            else acc
          if include_failures ∧ min_transitions ≤ failures then
            acc1 ++ [from_state ++ ",FAIL," ++ toString failures]
          else acc1
      | _ => acc) []
    String.intercalate "\n"
      (["```mermaid", "---", "config:", "  sankey:", "    showValues: true",
        "---", "sankey-beta", ""] ++ body ++ ["```"])

/-! ## Helper lemmas -/

theorem lookupA_setA {α : Type} (l : List (String × α)) (k k' : String) (v : α) :
    lookupA (setA l k v) k' = if k = k' then some v else lookupA l k' := by
  induction l with
  | nil => simp [setA, lookupA]
  | cons p rest ih =>
    obtain ⟨pk, pv⟩ := p
    by_cases hp : pk = k
    · subst hp
      by_cases h2 : pk = k' <;> simp [setA, lookupA, h2]
    · by_cases h2 : pk = k'
      · subst h2
        have hk : ¬ k = pk := fun h => hp h.symm
        simp [setA, lookupA, hp, hk]
      · simp [setA, lookupA, hp, h2, ih]

theorem lookupA_bumpInner (l : List (String × Nat)) (t t' : String) :
    (lookupA (bumpInner l t) t').getD 0 =
      (lookupA l t').getD 0 + if t = t' then 1 else 0 := by
  induction l with
  | nil => by_cases h : t = t' <;> simp [bumpInner, lookupA, h]
  | cons p rest ih =>
    obtain ⟨pk, pv⟩ := p
    by_cases hp : pk = t
    · subst hp
      by_cases h2 : pk = t' <;> simp [bumpInner, lookupA, h2]
    · by_cases h2 : pk = t'
      · subst h2
        have ht : ¬ t = pk := fun h => hp h.symm
        simp [bumpInner, lookupA, hp, ht]
      · simp [bumpInner, lookupA, hp, h2, ih]

theorem getCount_cons (k : String) (inner : List (String × Nat)) (rest : Matrix)
    (f' t' : String) :
    getCount ((k, inner) :: rest) f' t' =
      if k = f' then (lookupA inner t').getD 0 else getCount rest f' t' := by
  by_cases h : k = f' <;> simp [getCount, lookupA, h]

theorem getCount_bump (m : Matrix) (f t f' t' : String) :
    getCount (bump m f t) f' t' =
      getCount m f' t' + if f = f' ∧ t = t' then 1 else 0 := by
  induction m with
  | nil =>
    by_cases hf : f = f'
    · subst hf
      by_cases ht : t = t' <;>
        simp [bump, getCount_cons, getCount, lookupA, bumpInner, ht]
    · simp [bump, getCount_cons, getCount, lookupA, hf]
  | cons p rest ih =>
    obtain ⟨pk, inner⟩ := p
    by_cases hp : pk = f
    · subst hp
      by_cases h2 : pk = f'
      · subst h2
        by_cases ht : t = t' <;>
          simp [bump, getCount_cons, lookupA_bumpInner, ht]
      · simp [bump, getCount_cons, h2]
    · by_cases h2 : pk = f'
      · subst h2
        have hf : ¬ f = pk := fun h => hp h.symm
        simp [bump, hp, getCount_cons, hf]
      · simp [bump, hp, getCount_cons, h2, ih]

theorem rowSum_bumpInner (l : List (String × Nat)) (t : String) :
    rowSum (bumpInner l t) = rowSum l + 1 := by
  induction l with
  | nil => simp [bumpInner, rowSum]
  | cons p rest ih =>
    obtain ⟨pk, pv⟩ := p
    by_cases h : pk = t <;> simp [bumpInner, rowSum, h, ih] <;> omega

theorem matrixSum_bump (m : Matrix) (f t : String) :
    matrixSum (bump m f t) = matrixSum m + 1 := by
  induction m with
  | nil => simp [bump, bumpInner, matrixSum, rowSum]
  | cons p rest ih =>
    obtain ⟨pk, inner⟩ := p
    by_cases h : pk = f <;>
      simp [bump, matrixSum, h, rowSum_bumpInner, ih] <;> omega

theorem filter_orderedInsert_count (c : Nat) (a : String × String × Nat)
    (l : List (String × String × Nat)) :
    (List.orderedInsert hotspotLE a l).filter (fun e => decide (e.2.2 = c)) =
      if a.2.2 = c then a :: l.filter (fun e => decide (e.2.2 = c))
      else l.filter (fun e => decide (e.2.2 = c)) := by
  induction l with
  | nil => by_cases hc : a.2.2 = c <;> simp [List.orderedInsert, hc]
  | cons b l ih =>
    by_cases h : hotspotLE a b
    · by_cases hc : a.2.2 = c <;>
        simp [List.orderedInsert, h, List.filter_cons, hc]
    · have hlt : a.2.2 < b.2.2 := by
        have := h
        simp only [hotspotLE, not_le] at this
        exact this
      by_cases hb : b.2.2 = c
      · have hac : ¬ a.2.2 = c := by omega
        simp [List.orderedInsert, h, List.filter_cons, hb, hac, ih]
      · by_cases hc : a.2.2 = c <;>
          simp [List.orderedInsert, h, List.filter_cons, hb, hc, ih]

theorem filter_insertionSort_count (c : Nat)
    (l : List (String × String × Nat)) :
    (List.insertionSort hotspotLE l).filter (fun e => decide (e.2.2 = c)) =
      l.filter (fun e => decide (e.2.2 = c)) := by
  induction l with
  | nil => rfl
  | cons a l ih =>
    by_cases hc : a.2.2 = c <;>
      simp [List.insertionSort, filter_orderedInsert_count, List.filter_cons, hc, ih]

/-! ## Traces of recording calls -/

/-- One `TransitionFailureMatrix.record_transition` call's arguments. -/
abbrev ARecord := String × String × Bool

/-- Fold a sequence of `record_transition` calls into an analyzer matrix. -/
def runMatrixFrom (m : TransitionFailureMatrix) : List ARecord → TransitionFailureMatrix
  | [] => m
  | r :: rest => runMatrixFrom (m.record_transition r.1 r.2.1 r.2.2) rest

/-- A fresh analyzer matrix after a sequence of `record_transition` calls. -/
def runMatrix (trace : List ARecord) : TransitionFailureMatrix :=
  runMatrixFrom (TransitionFailureMatrix.init []) trace

/-- Number of recorded events with `success=False` in an analyzer trace. -/
def countFailuresA (trace : List ARecord) : Nat :=
  (trace.filter (fun r => !r.2.2)).length

/-- One `TransitionTracker.record_transition` call's arguments. -/
structure RecordCall where
  from_state : String
  to_state : String
  success : Bool
  duration_ms : ℚ
  error_message : Option String
  workflow_id : String
  metadata : List (String × String)

/-- Fold a sequence of `record_transition` calls into a tracker. -/
def runTrackerFrom (t : TransitionTracker) : List RecordCall → TransitionTracker
  | [] => t
  | c :: rest =>
    runTrackerFrom (t.record_transition c.from_state c.to_state c.success
      c.duration_ms c.error_message c.workflow_id c.metadata) rest

/-- A fresh tracker after a sequence of `record_transition` calls. -/
def runTracker (trace : List RecordCall) : TransitionTracker :=
  runTrackerFrom TransitionTracker.init trace

/-- Number of recorded events with `success=False` in a tracker trace. -/
def countFailuresT (trace : List RecordCall) : Nat :=
  (trace.filter (fun c => !c.success)).length

theorem record_transition_step (m : TransitionFailureMatrix) (f t : String)
    (s : Bool) :
    (m.record_transition f t s).total_transitions = m.total_transitions + 1 ∧
    (m.record_transition f t s).total_failures =
      m.total_failures + (if s then 0 else 1) ∧
    matrixSum (m.record_transition f t s).matrix =
      matrixSum m.matrix + (if s then 0 else 1) := by
  cases s <;>
    simp [TransitionFailureMatrix.record_transition,
      TransitionFailureMatrix.record_failure, matrixSum_bump]

theorem runMatrixFrom_totals :
    ∀ (trace : List ARecord) (m : TransitionFailureMatrix),
    (runMatrixFrom m trace).total_transitions =
      m.total_transitions + trace.length ∧
    (runMatrixFrom m trace).total_failures =
      m.total_failures + countFailuresA trace ∧
    matrixSum (runMatrixFrom m trace).matrix =
      matrixSum m.matrix + countFailuresA trace := by
  intro trace
  induction trace with
  | nil => intro m; simp [runMatrixFrom, countFailuresA]
  | cons r rest ih =>
    intro m
    obtain ⟨h1, h2, h3⟩ := ih (m.record_transition r.1 r.2.1 r.2.2)
    obtain ⟨s1, s2, s3⟩ := record_transition_step m r.1 r.2.1 r.2.2
    refine ⟨?_, ?_, ?_⟩ <;>
      simp only [runMatrixFrom, h1, h2, h3, s1, s2, s3, countFailuresA,
        List.filter_cons] <;>
      cases hr : r.2.2 <;> simp [countFailuresA, hr] <;> omega

theorem tracker_record_step (t : TransitionTracker) (c : RecordCall) :
    (t.record_transition c.from_state c.to_state c.success c.duration_ms
        c.error_message c.workflow_id c.metadata).events.length =
      t.events.length + 1 ∧
    ((t.record_transition c.from_state c.to_state c.success c.duration_ms
        c.error_message c.workflow_id c.metadata).events.filter
          (fun e => !e.success)).length =
      (t.events.filter (fun e => !e.success)).length +
        (if c.success then 0 else 1) ∧
    matrixSum (t.record_transition c.from_state c.to_state c.success
        c.duration_ms c.error_message c.workflow_id c.metadata).matrix =
      matrixSum t.matrix + (if c.success then 0 else 1) := by
  cases hs : c.success <;>
    simp [TransitionTracker.record_transition, List.filter_append, hs,
      matrixSum_bump]

theorem runTrackerFrom_totals :
    ∀ (trace : List RecordCall) (t : TransitionTracker),
    (runTrackerFrom t trace).events.length = t.events.length + trace.length ∧
    ((runTrackerFrom t trace).events.filter (fun e => !e.success)).length =
      (t.events.filter (fun e => !e.success)).length + countFailuresT trace ∧
    matrixSum (runTrackerFrom t trace).matrix =
      matrixSum t.matrix + countFailuresT trace := by
  intro trace
  induction trace with
  | nil => intro t; simp [runTrackerFrom, countFailuresT]
  | cons c rest ih =>
    intro t
    obtain ⟨h1, h2, h3⟩ := ih (t.record_transition c.from_state c.to_state
      c.success c.duration_ms c.error_message c.workflow_id c.metadata)
    obtain ⟨s1, s2, s3⟩ := tracker_record_step t c
    refine ⟨?_, ?_, ?_⟩ <;>
      simp only [runTrackerFrom, h1, h2, h3, s1, s2, s3, countFailuresT,
        List.filter_cons] <;>
      cases hc : c.success <;> simp [countFailuresT, hc] <;> omega

theorem get_current_state_record (t : TransitionTracker) (f to_st : String)
    (s : Bool) (d : ℚ) (e : Option String) (w : String)
    (md : List (String × String)) (wid : String) :
    (t.record_transition f to_st s d e w md).get_current_state wid =
      if s = true ∧ w = wid then some to_st else t.get_current_state wid := by
  cases s <;>
    simp [TransitionTracker.record_transition, TransitionTracker.get_current_state,
      lookupA_setA]

/-- The value `current_state.get(wid)` carried forward through a trace:
a fold that replaces the accumulator at every successful record for `wid`. -/
def lastFrom (wid : String) (a : Option String) (trace : List RecordCall) :
    Option String :=
  trace.foldl
    (fun acc c =>
      if c.success = true ∧ c.workflow_id = wid then some c.to_state else acc) a

theorem lookup_runTrackerFrom (wid : String) :
    ∀ (trace : List RecordCall) (t : TransitionTracker),
    (runTrackerFrom t trace).get_current_state wid =
      lastFrom wid (t.get_current_state wid) trace := by
  intro trace
  induction trace with
  | nil => intro t; simp [runTrackerFrom, lastFrom]
  | cons c rest ih =>
    intro t
    simp only [runTrackerFrom, lastFrom, List.foldl_cons]
    rw [ih, get_current_state_record]
    rfl

theorem analyzer_record_getCount (m : TransitionFailureMatrix)
    (f t : String) (s : Bool) (f' t' : String) :
    getCount (m.record_transition f t s).matrix f' t' =
      getCount m.matrix f' t' + if s = false ∧ f = f' ∧ t = t' then 1 else 0 := by
  cases s <;>
    simp [TransitionFailureMatrix.record_transition,
      TransitionFailureMatrix.record_failure, getCount_bump]

/-! ## Claims -/

/-- C1: For every sequence of `record_transition` calls on a fresh
tracker/matrix, the sum of all counts in the failure matrix equals the number
of recorded events with `success=false` (and `total_failures` equals that
sum), while `total_transitions` (resp. `total_events` in the tracker summary)
equals the total number of record calls. -/
theorem C1_totals_invariant (traceA : List ARecord) (traceT : List RecordCall) :
    (runMatrix traceA).total_transitions = traceA.length ∧
    (runMatrix traceA).total_failures = countFailuresA traceA ∧
    matrixSum (runMatrix traceA).matrix = countFailuresA traceA ∧
    (runTracker traceT).get_matrix_summary.total_events = traceT.length ∧
    (runTracker traceT).get_matrix_summary.total_failures = countFailuresT traceT ∧
    matrixSum (runTracker traceT).matrix = countFailuresT traceT := by
  obtain ⟨a1, a2, a3⟩ := runMatrixFrom_totals traceA (TransitionFailureMatrix.init [])
  obtain ⟨t1, t2, t3⟩ := runTrackerFrom_totals traceT TransitionTracker.init
  refine ⟨?_, ?_, ?_, ?_, ?_, ?_⟩ <;>
    simp_all [runMatrix, runTracker, TransitionTracker.get_matrix_summary,
      TransitionFailureMatrix.init, TransitionTracker.init, matrixSum]

/-- C2: `record_transition(from, to, success, ...)` appends exactly one event,
increments the failure count of `(from, to)` exactly when `success` is false
(leaving all other counts unchanged), and sets the current state of
`workflow_id` to `to` exactly when `success` is true (a failed record leaves
every workflow's current state unchanged).  The operation is a total function
of its arguments — it cannot raise for any state names. -/
theorem C2_record_transition_effects (t : TransitionTracker)
    (f to_st : String) (s : Bool) (d : ℚ) (e : Option String) (w : String)
    (md : List (String × String)) :
    (t.record_transition f to_st s d e w md).events =
      t.events ++ [⟨f, to_st, s, d, e, md⟩] ∧
    (∀ f' t', getCount (t.record_transition f to_st s d e w md).matrix f' t' =
      getCount t.matrix f' t' +
        if s = false ∧ f = f' ∧ to_st = t' then 1 else 0) ∧
    (∀ w', (t.record_transition f to_st s d e w md).get_current_state w' =
      if s = true ∧ w = w' then some to_st else t.get_current_state w') := by
  refine ⟨rfl, ?_, fun w' => get_current_state_record t f to_st s d e w md w'⟩
  intro f' t'
  cases s <;> simp [TransitionTracker.record_transition, getCount_bump]

/-- C9: For every sequence of recorded transitions, the failure rate computed
by `render_markdown` equals `failures/total*100` when `total > 0` and `0` when
`total = 0`, and the one computed by `render_json` equals `failures/total`
under the same guard; the guard makes the division-by-zero case unreachable. -/
theorem C9_failure_rates (trace : List ARecord) :
    (runMatrix trace).markdown_failure_rate =
      (if 0 < trace.length then
        (countFailuresA trace : ℚ) / (trace.length : ℚ) * 100 else 0) ∧
    (runMatrix trace).json_failure_rate =
      (if 0 < trace.length then
        (countFailuresA trace : ℚ) / (trace.length : ℚ) else 0) := by
  obtain ⟨a1, a2, _⟩ := runMatrixFrom_totals trace (TransitionFailureMatrix.init [])
  have a1' : (runMatrix trace).total_transitions = trace.length := by
    simpa [runMatrix, TransitionFailureMatrix.init] using a1
  have a2' : (runMatrix trace).total_failures = countFailuresA trace := by
    simpa [runMatrix, TransitionFailureMatrix.init] using a2
  constructor <;>
    simp [TransitionFailureMatrix.markdown_failure_rate,
      TransitionFailureMatrix.json_failure_rate, a1', a2']

/-- The `to_state` of the last successful record for a workflow, if any. -/
def lastSuccessTo (wid : String) (trace : List RecordCall) : Option String :=
  lastFrom wid none trace

/-- C5: the current-state lookup (resolved through the wrappers'
`... or "START"` fallback) returns the sentinel `"START"` for a workflow with
no recorded successful transition, and otherwise the `to_state` of the most
recent successful record for that workflow (for non-empty state names, which
Python truthiness would otherwise collapse into the sentinel).  The lookup
itself is a pure function of the tracker state. -/
theorem C5_current_state (trace : List RecordCall) (wid : String) :
    (lastSuccessTo wid trace = none →
      orStart ((runTracker trace).get_current_state wid) = "START") ∧
    (∀ s, lastSuccessTo wid trace = some s → s ≠ "" →
      orStart ((runTracker trace).get_current_state wid) = s) := by
  have h := lookup_runTrackerFrom wid trace TransitionTracker.init
  constructor
  · intro hn
    have hl : (runTracker trace).get_current_state wid = none := by
      rw [runTracker, h]; exact hn
    simp [orStart, hl]
  · intro s hs hne
    have hl : (runTracker trace).get_current_state wid = some s := by
      rw [runTracker, h]; exact hs
    simp [orStart, hl, hne]

/-- Witness for C5 at a concrete two-call trace: a success into `"B"` followed
by a failure leaves the resolved state at `"B"`. -/
theorem C5_current_state_witness :
    orStart ((runTracker
      [⟨"START", "B", true, 0, none, "default", []⟩,
       ⟨"B", "C", false, 0, some "boom", "default", []⟩]).get_current_state
        "default") = "B" := by
  refine (C5_current_state _ "default").2 "B" (by decide) (by decide)

/-- C10: after a line matching the explicit `TRANSITION` pattern is processed,
the parser's tracked current state is the transition's `to_state` on SUCCESS
and its `from_state` on FAILURE — a failed explicit transition never advances
the inferred state. -/
theorem C10_explicit_transition_state (st : ParseState) (line : String)
    (f t : String) (b : Bool) (hne : (stripChars line.data).isEmpty = false)
    (hm : searchTransitionL (stripChars line.data) = some (f, t, b)) :
    (parseLine st line).current = some (if b then t else f) := by
  simp [parseLine, hne, hm]

/-- Witness for C10 on a concrete FAILURE line: the current state stays at the
`from_state` `"A"`. -/
theorem C10_explicit_transition_state_witness :
    (parseLine { matrix := TransitionFailureMatrix.init [], current := none }
      "TRANSITION: A -> B FAILURE").current = some "A" := by
  have h := C10_explicit_transition_state
    { matrix := TransitionFailureMatrix.init [], current := none }
    "TRANSITION: A -> B FAILURE" "A" "B" false (by decide) (by decide)
  simpa using h

/-- C6 counterexample: on the concrete line sequence
`["STATE: A", "STATE: A"]` the second line matches the `STATE` pattern and a
last-seen state (`"A"`) exists, yet no transition at all is recorded — the
claim's "each line matching `STATE: <NAME>` causes a move … recorded as a
transition" fails because the parser skips the record when the new state
equals the last-seen state (and likewise when no state was seen yet). -/
theorem C6_counterexample :
    searchStateL (stripChars "STATE: A".data) = some "A" ∧
    (parseLines ["STATE: A"] []).current = some "A" ∧
    (parseLines ["STATE: A", "STATE: A"] []).matrix.total_transitions = 0 := by
  refine ⟨by decide, by decide, by decide⟩

/-- C6 amended: a stripped non-empty line that does not match the explicit
`TRANSITION` pattern but matches `STATE: <NAME>` always makes `<NAME>` the
parser's last-seen state; it records a transition (from the last-seen state
into `<NAME>`) only when a last-seen state exists, is non-empty, and differs
from `<NAME>`, and the recorded transition counts as a failure exactly when
the line also matches one of the error keywords `ERROR`, `EXCEPTION`,
`FAILED`, `FAILURE` case-insensitively; otherwise the matrix is unchanged. -/
theorem C6_state_lines_amended (st : ParseState) (line : String) (name : String)
    (hne : (stripChars line.data).isEmpty = false)
    (hnt : searchTransitionL (stripChars line.data) = none)
    (hs : searchStateL (stripChars line.data) = some name) :
    (parseLine st line).current = some name ∧
    (∀ c, st.current = some c → c ≠ "" → c ≠ name →
      (parseLine st line).matrix.total_transitions =
        st.matrix.total_transitions + 1 ∧
      (∀ f' t', getCount (parseLine st line).matrix.matrix f' t' =
        getCount st.matrix.matrix f' t' +
          if hasErrorKeyword (stripChars line.data) = true ∧ c = f' ∧ name = t'
          then 1 else 0)) ∧
    ((st.current = none ∨ st.current = some name ∨ st.current = some "") →
      (parseLine st line).matrix = st.matrix) := by
  refine ⟨?_, ?_, ?_⟩
  · cases hc : st.current <;> simp [parseLine, hne, hnt, hs, hc]
  · intro c hc hce hcn
    have hrec : (parseLine st line).matrix =
        st.matrix.record_transition c name (!hasErrorKeyword (stripChars line.data)) := by
      simp [parseLine, hne, hnt, hs, hc, hce, hcn]
    constructor
    · rw [hrec]
      exact (record_transition_step st.matrix c name _).1
    · intro f' t'
      rw [hrec, analyzer_record_getCount]
      cases he : hasErrorKeyword (stripChars line.data) <;> simp [he]
  · intro hc
    rcases hc with hc | hc | hc <;> simp [parseLine, hne, hnt, hs, hc]

/-- Witness for C6 on a concrete error-keyword line: from last-seen state
`"A"`, `"STATE: B ERROR boom"` records one transition and bumps the failure
count of `(A, B)`. -/
theorem C6_state_lines_amended_witness :
    (parseLine { matrix := TransitionFailureMatrix.init [], current := some "A" }
      "STATE: B ERROR boom").current = some "B" ∧
    (parseLine { matrix := TransitionFailureMatrix.init [], current := some "A" }
      "STATE: B ERROR boom").matrix.total_transitions = 1 ∧
    getCount (parseLine
      { matrix := TransitionFailureMatrix.init [], current := some "A" }
      "STATE: B ERROR boom").matrix.matrix "A" "B" = 1 := by
  have h := C6_state_lines_amended
    { matrix := TransitionFailureMatrix.init [], current := some "A" }
    "STATE: B ERROR boom" "B" (by decide) (by decide) (by decide)
  obtain ⟨h1, h2, _⟩ := h
  obtain ⟨h3, h4⟩ := h2 "A" rfl (by decide) (by decide)
  refine ⟨h1, by simpa using h3, ?_⟩
  have he : hasErrorKeyword (stripChars "STATE: B ERROR boom".data) = true := by
    decide
  have := h4 "A" "B"
  simpa [TransitionFailureMatrix.init, getCount, lookupA, he] using this

/-- The failure pairs of a trace in insertion order of their first occurrence
— the tie-breaking order the claim describes (a definition following the
claim's words, for comparison against `get_hotspots`). -/
def failurePairsFirstOccurrence (trace : List ARecord) : List (String × String) :=
  trace.foldl
    (fun acc r =>
      if r.2.2 then acc
      else if (r.1, r.2.1) ∈ acc then acc else acc ++ [(r.1, r.2.1)]) []

/-- The hotspot list the claim describes: entries in first-occurrence
insertion order, filtered to `count ≥ minCount`, stable-sorted by count
descending (a definition following the claim's words, for comparison against
`get_hotspots`). -/
def hotspotsClaimOrder (trace : List ARecord) (min_count : Nat) :
    List (String × String × Nat) :=
  let m := runMatrix trace
  List.insertionSort hotspotLE
    (((failurePairsFirstOccurrence trace).map
      (fun p => (p.1, p.2, getCount m.matrix p.1 p.2))).filter
        (fun e => decide (min_count ≤ e.2.2)))

/-- The concrete trace refuting C3's tie-breaking clause: three failures on
the pairs `(A,X)`, `(B,Y)`, `(A,Z)` in that order. -/
def traceC3 : List ARecord :=
  [("A", "X", false), ("B", "Y", false), ("A", "Z", false)]

/-- C3 counterexample: after failures on `(A,X)`, `(B,Y)`, `(A,Z)` in that
order, all counts tie at 1, so the claim requires first-occurrence order
`(A,X), (B,Y), (A,Z)`; `get_hotspots` instead iterates the nested mapping
grouped by `from` state and returns `(A,X), (A,Z), (B,Y)`. -/
theorem C3_counterexample :
    (runMatrix traceC3).get_hotspots 1 =
      [("A", "X", 1), ("A", "Z", 1), ("B", "Y", 1)] ∧
    hotspotsClaimOrder traceC3 1 =
      [("A", "X", 1), ("B", "Y", 1), ("A", "Z", 1)] ∧
    (runMatrix traceC3).get_hotspots 1 ≠ hotspotsClaimOrder traceC3 1 := by
  refine ⟨by decide, by decide, by decide⟩

/-- C3 amended: `get_hotspots(minCount)` returns exactly the matrix entries
with `count ≥ minCount`, sorted by count descending; ties are broken by the
nested mapping's iteration order — `from` states in order of their first
recorded failure, and within one `from` state the `to` states in order of
their first recorded failure — not by global first-occurrence order; the
result depends only on the failure matrix, so repeated calls on the same
ledger state agree. -/
theorem C3_hotspots_amended (m : TransitionFailureMatrix) (k : Nat) :
    List.Sorted hotspotLE (m.get_hotspots k) ∧
    List.Perm (m.get_hotspots k)
      ((flattenMatrix m.matrix).filter (fun e => decide (k ≤ e.2.2))) ∧
    (∀ c : Nat, (m.get_hotspots k).filter (fun e => decide (e.2.2 = c)) =
      ((flattenMatrix m.matrix).filter (fun e => decide (k ≤ e.2.2))).filter
        (fun e => decide (e.2.2 = c))) ∧
    (∀ m' : TransitionFailureMatrix, m.matrix = m'.matrix →
      m.get_hotspots k = m'.get_hotspots k) := by
  refine ⟨List.sorted_insertionSort hotspotLE _, List.perm_insertionSort hotspotLE _,
    fun c => filter_insertionSort_count c _, fun m' hm => ?_⟩
  simp [TransitionFailureMatrix.get_hotspots, hm]

/-- Witness for C3's amended determinism clause: a matrix differing only in
its display fields yields the same hotspot list. -/
theorem C3_hotspots_amended_witness :
    (runMatrix traceC3).get_hotspots 1 =
      ({ runMatrix traceC3 with states := ["Q"] } :
        TransitionFailureMatrix).get_hotspots 1 := by
  exact (C3_hotspots_amended (runMatrix traceC3) 1).2.2.2 _ rfl

/-- C7: for either wrapper produced by `track_state`, the wrapped call's
outcome is propagated unchanged — a returned value is returned as-is and a
raised error is re-raised as-is — while the tracker records exactly one
event whose success flag mirrors the outcome and whose error message is the
string form of the raised error (absent on success); the async wrapper
behaves identically to the sync one. -/
theorem C7_wrapper_propagates {ε α : Type} (state_name workflow_id : String)
    (strF : ε → String) (t : TransitionTracker) (d : ℚ)
    (outcome : Outcome ε α) :
    (sync_wrapper state_name workflow_id strF t d outcome).2 = outcome ∧
    async_wrapper state_name workflow_id strF t d outcome =
      sync_wrapper state_name workflow_id strF t d outcome ∧
    (sync_wrapper state_name workflow_id strF t d outcome).1.events =
      t.events ++
        [{ from_state := orStart (t.get_current_state workflow_id)
           to_state := state_name
           success := (match outcome with | .ok _ => true | .error _ => false)
           duration_ms := d
           error_message :=
             (match outcome with | .ok _ => none | .error e => some (strF e))
           metadata := [] }] := by
  cases outcome <;>
    simp [sync_wrapper, async_wrapper, TransitionTracker.record_transition]

theorem lookupA_eq_none {α : Type} (l : List (String × α)) (k : String) :
    lookupA l k = none ↔ k ∉ l.map Prod.fst := by
  induction l with
  | nil => simp [lookupA]
  | cons p rest ih =>
    obtain ⟨pk, pv⟩ := p
    by_cases h : pk = k
    · subst h; simp [lookupA]
    · simp [lookupA, h, ih, Ne.symm h]


theorem compare_to_baseline_mem :
    ∀ (current baseline : List (String × RateStats)) (threshold : ℚ)
      (r : Regression), r ∈ compare_to_baseline current baseline threshold →
      r.transition ∈ current.map Prod.fst ∧
      ∃ base, lookupA baseline r.transition = some base := by
  intro current
  induction current with
  | nil =>
    intro baseline th r hr
    simp [compare_to_baseline] at hr
  | cons p rest ih =>
    intro baseline th r hr
    obtain ⟨pair, cur⟩ := p
    cases hb : lookupA baseline pair with
    | none =>
      simp only [compare_to_baseline, hb] at hr
      obtain ⟨h1, h2⟩ := ih baseline th r hr
      exact ⟨by simp [h1], h2⟩
    | some base =>
      simp only [compare_to_baseline, hb] at hr
      by_cases hcond : 0 < cur.failure_rate - base.failure_rate ∧
          th < (cur.failure_rate - base.failure_rate) /
            max base.failure_rate epsilonTFM
      · rw [if_pos hcond] at hr
        rcases List.mem_cons.mp hr with he | hr2
        · subst he
          exact ⟨by simp, base, hb⟩
        · obtain ⟨h1, h2⟩ := ih baseline th r hr2
          exact ⟨by simp [h1], h2⟩
      · rw [if_neg hcond] at hr
        obtain ⟨h1, h2⟩ := ih baseline th r hr
        exact ⟨by simp [h1], h2⟩

/-- The concrete rate-statistics record used in C4's scenario: only the
`failure_rate` percentage matters to `compare_to_baseline`. -/
def statsWithRate (r : ℚ) : RateStats :=
  { total := 20, successes := 17, failures := 3, failure_rate := r,
    avg_duration_ms := 0 }

/-- C4: `compare_to_baseline` reports a regression for a pair present in both
mappings exactly when `delta = current − baseline > 0` and
`delta / max(baseline, epsilon) > threshold`; with baseline rate 10.0 and
current 15.0 at threshold 0.2 a regression (delta 5, 50% increase) is
reported, with current 11.0 none is, and pairs present on only one side are
never reported. -/
theorem C4_compare_to_baseline :
    (∀ (current baseline : List (String × RateStats)) (threshold : ℚ)
       (pair : String), (current.map Prod.fst).Nodup →
      ((∃ r ∈ compare_to_baseline current baseline threshold,
          r.transition = pair) ↔
        (∃ cur base, lookupA current pair = some cur ∧
          lookupA baseline pair = some base ∧
          0 < cur.failure_rate - base.failure_rate ∧
          threshold < (cur.failure_rate - base.failure_rate) /
            max base.failure_rate epsilonTFM))) ∧
    compare_to_baseline [("P", statsWithRate 15)] [("P", statsWithRate 10)]
        (2 / 10) =
      [{ transition := "P", baseline_rate := 10, current_rate := 15,
         delta := 5, percent_increase := 50 }] ∧
    compare_to_baseline [("P", statsWithRate 11)] [("P", statsWithRate 10)]
        (2 / 10) = [] ∧
    (∀ (current baseline : List (String × RateStats)) (threshold : ℚ)
       (pair : String), lookupA baseline pair = none →
      ∀ r ∈ compare_to_baseline current baseline threshold,
        r.transition ≠ pair) ∧
    (∀ (current baseline : List (String × RateStats)) (threshold : ℚ)
       (pair : String), lookupA current pair = none →
      ∀ r ∈ compare_to_baseline current baseline threshold,
        r.transition ≠ pair) := by
  have hmax : max (statsWithRate 10).failure_rate epsilonTFM = 10 := by
    rw [statsWithRate]
    exact max_eq_left (by norm_num [epsilonTFM])
  have hlk : ∀ x : RateStats, lookupA [("P", x)] "P" = some x := by
    intro x; simp [lookupA]
  refine ⟨?_, ?_, ?_, ?_, ?_⟩
  · intro current baseline threshold pair hnd
    induction current with
    | nil => simp [compare_to_baseline, lookupA]
    | cons p rest ih =>
      obtain ⟨pk, cur0⟩ := p
      simp only [List.map_cons, List.nodup_cons] at hnd
      obtain ⟨hpk, hnd'⟩ := hnd
      have ihx := ih hnd'
      by_cases hp : pk = pair
      · subst hp
        cases hb : lookupA baseline pk with
        | none =>
          constructor
          · rintro ⟨r, hr, ht⟩
            simp only [compare_to_baseline, hb] at hr
            have := (compare_to_baseline_mem rest baseline threshold r hr).1
            rw [ht] at this
            exact absurd this hpk
          · rintro ⟨cur, base, _, hb2, _⟩
            cases hb2
        | some base0 =>
          by_cases hcond : 0 < cur0.failure_rate - base0.failure_rate ∧
              threshold < (cur0.failure_rate - base0.failure_rate) /
                max base0.failure_rate epsilonTFM
          · constructor
            · intro _
              exact ⟨cur0, base0, by simp [lookupA], rfl, hcond.1, hcond.2⟩
            · intro _
              refine ⟨(⟨pk, base0.failure_rate, cur0.failure_rate,
                cur0.failure_rate - base0.failure_rate,
                (cur0.failure_rate - base0.failure_rate) /
                  max base0.failure_rate epsilonTFM * 100⟩ : Regression),
                ?_, rfl⟩
              simp only [compare_to_baseline, hb]
              rw [if_pos hcond]
              exact List.mem_cons_self _ _
          · constructor
            · rintro ⟨r, hr, ht⟩
              simp only [compare_to_baseline, hb] at hr
              rw [if_neg hcond] at hr
              have := (compare_to_baseline_mem rest baseline threshold r hr).1
              rw [ht] at this
              exact absurd this hpk
            · rintro ⟨cur, base, hc, hb2, h1, h2⟩
              injection hb2 with hbb
              subst hbb
              have hcc : cur0 = cur := by simpa [lookupA] using hc
              subst hcc
              exact absurd ⟨h1, h2⟩ hcond
      · have hstep : ∀ r : Regression,
            (r ∈ compare_to_baseline ((pk, cur0) :: rest) baseline threshold ∧
                r.transition = pair) ↔
              (r ∈ compare_to_baseline rest baseline threshold ∧
                r.transition = pair) := by
          intro r
          constructor
          · rintro ⟨hr, ht⟩
            refine ⟨?_, ht⟩
            cases hb : lookupA baseline pk with
            | none =>
              simp only [compare_to_baseline, hb] at hr
              exact hr
            | some base0 =>
              simp only [compare_to_baseline, hb] at hr
              by_cases hcond : 0 < cur0.failure_rate - base0.failure_rate ∧
                  threshold < (cur0.failure_rate - base0.failure_rate) /
                    max base0.failure_rate epsilonTFM
              · rw [if_pos hcond] at hr
                rcases List.mem_cons.mp hr with he | hr2
                · rw [he] at ht
                  exact absurd ht.symm (by simpa using Ne.symm hp)
                · exact hr2
              · rw [if_neg hcond] at hr
                exact hr
          · rintro ⟨hr, ht⟩
            refine ⟨?_, ht⟩
            cases hb : lookupA baseline pk with
            | none =>
              simp only [compare_to_baseline, hb]
              exact hr
            | some base0 =>
              simp only [compare_to_baseline, hb]
              by_cases hcond : 0 < cur0.failure_rate - base0.failure_rate ∧
                  threshold < (cur0.failure_rate - base0.failure_rate) /
                    max base0.failure_rate epsilonTFM
              · rw [if_pos hcond]
                exact List.mem_cons_of_mem _ hr
              · rw [if_neg hcond]
                exact hr
        constructor
        · rintro ⟨r, hr, ht⟩
          have := ihx.mp ⟨r, ((hstep r).mp ⟨hr, ht⟩).1, ht⟩
          obtain ⟨cur, base, hc, hb2, h1, h2⟩ := this
          exact ⟨cur, base, by simp [lookupA, hp, Ne.symm hp, hc], hb2, h1, h2⟩
        · rintro ⟨cur, base, hc, hb2, h1, h2⟩
          simp only [lookupA, if_neg hp] at hc
          obtain ⟨r, hr, ht⟩ := ihx.mpr ⟨cur, base, hc, hb2, h1, h2⟩
          exact ⟨r, ((hstep r).mpr ⟨hr, ht⟩).1, ht⟩
  · have hcond : 0 < (statsWithRate 15).failure_rate -
        (statsWithRate 10).failure_rate ∧
        (2 / 10 : ℚ) < ((statsWithRate 15).failure_rate -
          (statsWithRate 10).failure_rate) /
            max (statsWithRate 10).failure_rate epsilonTFM := by
      rw [hmax]
      norm_num [statsWithRate]
    simp only [compare_to_baseline, hlk]
    rw [if_pos hcond, hmax]
    norm_num [statsWithRate, compare_to_baseline]
  · have hcond : ¬ (0 < (statsWithRate 11).failure_rate -
        (statsWithRate 10).failure_rate ∧
        (2 / 10 : ℚ) < ((statsWithRate 11).failure_rate -
          (statsWithRate 10).failure_rate) /
            max (statsWithRate 10).failure_rate epsilonTFM) := by
      rw [hmax]
      norm_num [statsWithRate]
    simp only [compare_to_baseline, hlk]
    rw [if_neg hcond]
  · intro current baseline threshold pair hb r hr ht
    obtain ⟨_, base, hb2⟩ := compare_to_baseline_mem current baseline threshold r hr
    rw [ht, hb] at hb2
    cases hb2
  · intro current baseline threshold pair hc r hr ht
    have := (compare_to_baseline_mem current baseline threshold r hr).1
    rw [ht] at this
    exact absurd this ((lookupA_eq_none current pair).mp hc)

/-- Witness for C4's characterization at the scenario input: the pair `"P"`
with baseline rate 10 and current rate 15 is reported at threshold 0.2. -/
theorem C4_compare_to_baseline_witness :
    ∃ r ∈ compare_to_baseline [("P", statsWithRate 15)]
      [("P", statsWithRate 10)] (2 / 10), r.transition = "P" := by
  refine (C4_compare_to_baseline.1 [("P", statsWithRate 15)]
    [("P", statsWithRate 10)] (2 / 10) "P" (by simp)).2 ?_
  refine ⟨statsWithRate 15, statsWithRate 10, by simp [lookupA],
    by simp [lookupA], ?_, ?_⟩
  · norm_num [statsWithRate]
  · have hmax : max (statsWithRate 10).failure_rate epsilonTFM = 10 := by
      rw [statsWithRate]
      exact max_eq_left (by norm_num [epsilonTFM])
    rw [hmax]
    norm_num [statsWithRate]

/-- C8 counterexample: a matrix constructed with the fixed, non-empty state
list `["A", "B"]` and zero recorded transitions does NOT render the
documented "no data" placeholder — `render_markdown`'s guard tests whether
`get_all_states()` is empty, not whether any transition was recorded, so a
full zero-count table is produced instead. -/
theorem C8_counterexample :
    TransitionFailureMatrix.render_markdown
        (TransitionFailureMatrix.init ["A", "B"]) ≠
      "# Transition Failure Matrix\n\nNo transitions found." := by
  decide

set_option maxRecDepth 10000 in
/-- C8 amended: the Markdown and ASCII renderers return their "no data"
placeholders exactly when `get_all_states()` is empty (zero transitions AND
no fixed state list), and the Sankey renderer when no rates exist; with a
fixed non-empty state list and zero transitions, Markdown and ASCII render a
well-formed table with zero totals instead of the placeholder; the JSON
renderer has no placeholder at all and always emits the summary object.  All
renderers are total functions, so none can raise. -/
theorem C8_renderers_amended :
    (∀ m : TransitionFailureMatrix,
      (TransitionFailureMatrix.get_all_states m).isEmpty = true →
      m.render_markdown = "# Transition Failure Matrix\n\nNo transitions found." ∧
      m.render_ascii = "No transitions found.") ∧
    (∀ (t : TransitionTracker) (b : Bool) (k : Nat),
      t.get_transition_rates.isEmpty = true →
      render_sankey t b k =
        "```mermaid\nsankey-beta\n\nNo transitions recorded\n```") ∧
    TransitionFailureMatrix.render_markdown
        (TransitionFailureMatrix.init ["A", "B"]) =
      "# Transition Failure Matrix\n\n**Total Transitions:** 0\n**Total Failures:** 0\n**Failure Rate:** 0.0%\n\n| From \\ To | A | B |\n|-----------|--------|--------|\n| **A** | - | - |\n| **B** | - | - |" ∧
    TransitionFailureMatrix.render_ascii
        (TransitionFailureMatrix.init ["A", "B"]) =
      "Total Transitions: 0\nTotal Failures: 0\n\n        A    B   \n-----------------\n   A | ·    ·   \n   B | ·    ·   " ∧
    TransitionFailureMatrix.render_json_value (TransitionFailureMatrix.init []) 1 =
      { states := [], matrix := [], hotspots := [], total_transitions := 0,
        total_failures := 0, failure_rate := 0 } := by
  refine ⟨?_, ?_, by decide, by decide, by decide⟩
  · intro m hm
    constructor <;>
      simp [TransitionFailureMatrix.render_markdown,
        TransitionFailureMatrix.render_ascii, hm]
  · intro t b k h
    simp [render_sankey, h]

/-- Witness for C8's amended placeholder clauses at the empty ledger. -/
theorem C8_renderers_amended_witness :
    TransitionFailureMatrix.render_markdown (TransitionFailureMatrix.init []) =
      "# Transition Failure Matrix\n\nNo transitions found." ∧
    TransitionFailureMatrix.render_ascii (TransitionFailureMatrix.init []) =
      "No transitions found." ∧
    render_sankey TransitionTracker.init true 1 =
      "```mermaid\nsankey-beta\n\nNo transitions recorded\n```" := by
  refine ⟨(C8_renderers_amended.1 (TransitionFailureMatrix.init []) (by decide)).1,
    (C8_renderers_amended.1 (TransitionFailureMatrix.init []) (by decide)).2,
    C8_renderers_amended.2.1 TransitionTracker.init true 1 (by decide)⟩

end TFM
